import Mathlib

/-!
Verification of the Smart-University-System student dashboard
(`src/python/app.py`): the `Student` record model, its derived
statistics (average grade, performance tier, distinction and
top-student flags, eligible-course normalization), the dict
serialization, the JSON record loader, and the summary aggregation.

Modelling conventions:
* Python floats are modelled as rationals (`ℚ`); Python's `round(x, 2)`
  (round-half-to-even) is `round2` below.
* Python strings that undergo character-level operations (`split`,
  `strip`, `join`) are modelled as `List Char`; opaque pass-through
  strings use `String`.
* `open`/`json.load` failures and per-record parse failures are
  modelled with `Except String`.
-/

/-- Floor of a rational, computed from its normalized numerator and
denominator (`q.den > 0`, so flooring division of `num` by `den` is
the floor of `q`). -/
def ratFloor (q : ℚ) : ℤ := q.num.fdiv (q.den : ℤ)

/-- Round a rational to the nearest integer, ties to the even integer:
the semantics of Python's builtin `round` on exact values. -/
def roundHalfEven (x : ℚ) : ℤ :=
  let n := ratFloor x
  let frac := x - (n : ℚ)
  if frac < 1/2 then n
  else if 1/2 < frac then n + 1
  else if 2 ∣ n then n else n + 1

/-- Python's `round(x, 2)`: round to the nearest multiple of 1/100,
ties to even. -/
def round2 (x : ℚ) : ℚ := (roundHalfEven (100 * x) : ℚ) / 100

/-- Python's `str.split(sep)` for a one-character separator: the
result is never empty, and splitting the empty string yields `[[]]`. -/
def pySplit (sep : Char) : List Char → List (List Char)
  | [] => [[]]
  | c :: cs =>
    if c = sep then [] :: pySplit sep cs
    else
      match pySplit sep cs with
      | [] => [[c]]
      | p :: ps => (c :: p) :: ps

/-- Whitespace characters removed by Python's `str.strip()` (ASCII
range: space, tab, newline, carriage return, vertical tab, form
feed). -/
def isPySpace (c : Char) : Bool :=
  c = ' ' || c = '\t' || c = '\n' || c = '\r' || c = '\x0b' || c = '\x0c'

/-- Python's `str.strip()`: drop whitespace from both ends. -/
def pyStrip (s : List Char) : List Char :=
  ((s.dropWhile isPySpace).reverse.dropWhile isPySpace).reverse

/-- Python's `sep.join(parts)` for a one-character separator. -/
def joinSep (sep : Char) : List (List Char) → List Char
  | [] => []
  | [p] => p
  | p :: q :: r => p ++ sep :: joinSep sep (q :: r)

/-- The filter predicate of `Student.get_eligible_courses`:
keep an entry whose stripped form is neither `""` nor `"-"`. -/
def keepEntry (p : List Char) : Bool :=
  decide (¬(pyStrip p = [] ∨ pyStrip p = ['-']))

/-- Body of `Student.get_eligible_courses` as a function of the raw
`_eligible_courses` string: split on `;`, drop blank/`"-"` entries,
rejoin with `;`, defaulting to `"-"` when nothing survives. -/
def eligibleFromRaw (raw : List Char) : List Char :=
  let parts := (pySplit ';' raw).filter keepEntry
  if parts = [] then ['-'] else joinSep ';' parts

/-- The `Student` class of `app.py`. -/
structure Student where
  name : String
  student_id : String
  courses : List (List Char)
  grades : List ℚ
  eligible_courses : List Char
  graduate : String
deriving DecidableEq

namespace Student

/-- `Student.avg_grade`: `0.0` on an empty grade list, otherwise
`round(reduce(+, grades) / len(grades), 2)`. Python's `reduce`
without an initializer folds the tail starting from the head. -/
def avg_grade (s : Student) : ℚ :=
  match s.grades with
  | [] => 0
  | g :: gs => round2 ((gs.foldl (· + ·) g) / ((gs.length + 1 : ℕ) : ℚ))

/-- `Student.predict_performance`: four-way threshold classification
of the average grade, thresholds checked in descending order. -/
def predict_performance (s : Student) : String :=
  let avg := s.avg_grade
  if avg ≥ 80 then "Excellent"
  else if avg ≥ 70 then "Good"
  else if avg ≥ 55 then "Average"
  else "Poor"

/-- `Student.has_distinction`: average grade strictly above 80. -/
def has_distinction (s : Student) : Bool :=
  decide (s.avg_grade > 80)

/-- `Student.is_top_student`: average grade at least 89. -/
def is_top_student (s : Student) : Bool :=
  decide (s.avg_grade ≥ 89)

/-- `Student.get_eligible_courses` applied to the stored raw
string. -/
def get_eligible_courses (s : Student) : List Char :=
  eligibleFromRaw s.eligible_courses

end Student

/-- Rendering of a grade for display, modelling Python's `str(g)`
inside `to_dict` (the exact digit string of a float is presentation
detail; only the `;`-joined structure is specified). -/
def ratStr (q : ℚ) : List Char := (toString q).toList

/-- The flat display mapping produced by `Student.to_dict`: exactly
the keys Name, ID, Code, Grades, AvgGrade, Prediction, Distinction,
TopStudent, EligibleCourses, Graduate. -/
structure StudentDict where
  Name : String
  ID : String
  Code : List Char
  Grades : List Char
  AvgGrade : ℚ
  Prediction : String
  Distinction : String
  TopStudent : String
  EligibleCourses : List Char
  Graduate : String
deriving DecidableEq

/-- `Student.to_dict`: serialize a student to the flat display
mapping; arrays become `;`-joined strings, booleans become
`"Yes"`/`"No"`. -/
def Student.to_dict (s : Student) : StudentDict where
  Name := s.name
  ID := s.student_id
  Code := joinSep ';' s.courses
  Grades := joinSep ';' (s.grades.map ratStr)
  AvgGrade := s.avg_grade
  Prediction := s.predict_performance
  Distinction := if s.has_distinction then "Yes" else "No"
  TopStudent := if s.is_top_student then "Yes" else "No"
  EligibleCourses := s.get_eligible_courses
  Graduate := s.graduate

/-- The aggregate object returned by the `/api/summary` route. -/
structure Summary where
  totalStudents : ℕ
  classAvgGrade : ℚ
  excellentCount : ℕ
  topStudentCount : ℕ
  distinctionCount : ℕ
deriving DecidableEq

/-- The `get_summary` route body, as a function of the loaded student
list: per-student averages, class average (`0` when there are no
students), and the three filtered counts. -/
def get_summary (students : List Student) : Summary where
  totalStudents := students.length
  classAvgGrade :=
    match students.map Student.avg_grade with
    | [] => 0
    | a :: rest => round2 ((rest.foldl (· + ·) a) / ((rest.length + 1 : ℕ) : ℚ))
  excellentCount := (students.filter (fun s => s.predict_performance == "Excellent")).length
  topStudentCount := (students.filter (fun s => s.is_top_student)).length
  distinctionCount := (students.filter (fun s => s.has_distinction)).length

/-! ### The record loader (`load_students`)

`load_students` opens `students.json`, parses it with `json.load`, and
maps each object of the array to a `Student`.  File reading and JSON
parsing are modelled by an `Except String JValue` input (the outcome
of `open` + `json.load`); any failure there, and any failure while
reading a record's fields, propagates uncaught. -/

/-- JSON values as produced by `json.load`. -/
inductive JValue where
  | null
  | bool (b : Bool)
  | num (q : ℚ)
  | str (s : String)
  | arr (elems : List JValue)
  | obj (fields : List (String × JValue))

/-- Python `d[k]` on a parsed JSON object: the value under the first
matching key, or an uncaught `KeyError`. -/
def lookupE (fs : List (String × JValue)) (k : String) : Except String JValue :=
  match fs.lookup k with
  | some v => .ok v
  | none => .error ("KeyError: " ++ k)

/-- Expect a JSON string (the `Name`/`ID`/`EligibleCourses`/`Graduate`
fields hold strings in the documented schema). -/
def asString : JValue → Except String String
  | .str s => .ok s
  | _ => .error "TypeError: expected string"

/-- Expect a JSON array of strings (the `Code` field). -/
def asStringArr : JValue → Except String (List String)
  | .arr es => es.foldr
      (fun e acc => do
        let s ← asString e
        let rest ← acc
        .ok (s :: rest))
      (.ok [])
  | _ => .error "TypeError: expected array of strings"

/-- Expect a JSON array of numbers (the `Grades` field). -/
def asNumArr : JValue → Except String (List ℚ)
  | .arr es => es.foldr
      (fun e acc => do
        match e with
        | .num q => do
          let rest ← acc
          .ok (q :: rest)
        | _ => .error "TypeError: expected number")
      (.ok [])
  | _ => .error "TypeError: expected array of numbers"

/-- Build one `Student` from one JSON object, mirroring the keyword
arguments of the `Student(...)` call in `load_students`: `Name`, `ID`,
`Code` and `Grades` are required (`d[...]`), `EligibleCourses` and
`Graduate` use `d.get` defaults `"-"` and `"No"`. -/
def parseStudent : JValue → Except String Student
  | .obj fs => do
    let name ← asString (← lookupE fs "Name")
    let sid ← asString (← lookupE fs "ID")
    let codes ← asStringArr (← lookupE fs "Code")
    let grades ← asNumArr (← lookupE fs "Grades")
    let ec ← match fs.lookup "EligibleCourses" with
      | none => .ok "-"
      | some v => asString v
    let grad ← match fs.lookup "Graduate" with
      | none => .ok "No"
      | some v => asString v
    .ok ⟨name, sid, codes.map String.toList, grades, ec.toList, grad⟩
  | _ => .error "TypeError: not an object"

/-- Python's `list(map(...))` over the parsed array: records are built
left to right; the first failing record aborts the whole
construction. -/
def parseAll : List JValue → Except String (List Student)
  | [] => .ok []
  | d :: ds => do
    let s ← parseStudent d
    let rest ← parseAll ds
    .ok (s :: rest)

/-- `load_students`: propagate any read/parse failure, require the
top-level value to be an array, and map its objects to students in
order. -/
def load_students (raw : Except String JValue) : Except String (List Student) := do
  match ← raw with
  | .arr xs => parseAll xs
  | _ => .error "TypeError: not a list"

/-! ### Evaluation lemmas for the rounding primitives -/

theorem ratFloor_eq_floor (q : ℚ) : ratFloor q = ⌊q⌋ := by
  rw [Rat.floor_def, ratFloor, Int.fdiv_eq_ediv]
  exact_mod_cast Nat.zero_le q.den

theorem ratFloor_eq (q : ℚ) (n : ℤ) (h1 : (n : ℚ) ≤ q) (h2 : q < n + 1) :
    ratFloor q = n := by
  rw [ratFloor_eq_floor]
  exact Int.floor_eq_iff.mpr ⟨h1, by exact_mod_cast h2⟩

theorem roundHalfEven_eq_of_lt_half (x : ℚ) (n : ℤ)
    (h1 : (n : ℚ) ≤ x) (h2 : x < n + 1/2) : roundHalfEven x = n := by
  have hf : ratFloor x = n := ratFloor_eq x n h1 (by linarith)
  unfold roundHalfEven
  rw [hf, if_pos (by linarith)]

theorem roundHalfEven_eq_of_gt_half (x : ℚ) (n : ℤ)
    (h1 : (n : ℚ) + 1/2 < x) (h2 : x < n + 1) : roundHalfEven x = n + 1 := by
  have hf : ratFloor x = n := ratFloor_eq x n (by linarith) h2
  unfold roundHalfEven
  rw [hf, if_neg (by push_neg; linarith), if_pos (by linarith)]

theorem round2_eq_of_lt_half (x : ℚ) (n : ℤ)
    (h1 : (n : ℚ) ≤ 100 * x) (h2 : 100 * x < n + 1/2) : round2 x = (n : ℚ) / 100 := by
  rw [round2, roundHalfEven_eq_of_lt_half (100 * x) n h1 h2]

theorem round2_eq_of_gt_half (x : ℚ) (n : ℤ)
    (h1 : (n : ℚ) + 1/2 < 100 * x) (h2 : 100 * x < n + 1) : round2 x = ((n : ℚ) + 1) / 100 := by
  rw [round2, roundHalfEven_eq_of_gt_half (100 * x) n h1 h2]
  push_cast
  ring

theorem round2_fix (n : ℤ) : round2 ((n : ℚ)/100) = (n : ℚ)/100 := by
  have h : (100 : ℚ) * ((n : ℚ)/100) = (n : ℚ) := by field_simp
  rw [round2_eq_of_lt_half _ n (by rw [h]) (by rw [h]; linarith)]

theorem round2_eq_self (x : ℚ) (n : ℤ) (hx : x = (n : ℚ)/100) : round2 x = x := by
  rw [hx, round2_fix]

/-! ### Lemmas about the statistics model -/

theorem foldl_add_eq (a : ℚ) (l : List ℚ) : l.foldl (· + ·) a = a + l.sum := by
  induction l generalizing a with
  | nil => simp
  | cons x xs ih => rw [List.foldl_cons, ih, List.sum_cons]; ring

theorem avg_grade_of_nil (s : Student) (h : s.grades = []) : s.avg_grade = 0 := by
  simp [Student.avg_grade, h]

theorem avg_grade_of_ne_nil (s : Student) (h : s.grades ≠ []) :
    s.avg_grade = round2 (s.grades.sum / (s.grades.length : ℚ)) := by
  obtain ⟨g, gs, hg⟩ := List.exists_cons_of_ne_nil h
  simp only [Student.avg_grade, hg, foldl_add_eq, List.sum_cons, List.length_cons]

theorem tier_excellent (s : Student) (h : 80 ≤ s.avg_grade) :
    s.predict_performance = "Excellent" := by
  unfold Student.predict_performance
  rw [if_pos h]

theorem tier_good (s : Student) (h1 : 70 ≤ s.avg_grade) (h2 : s.avg_grade < 80) :
    s.predict_performance = "Good" := by
  unfold Student.predict_performance
  rw [if_neg (not_le.mpr h2), if_pos h1]

theorem tier_average (s : Student) (h1 : 55 ≤ s.avg_grade) (h2 : s.avg_grade < 70) :
    s.predict_performance = "Average" := by
  unfold Student.predict_performance
  rw [if_neg (not_le.mpr (h2.trans_le (by norm_num))), if_neg (not_le.mpr h2), if_pos h1]

theorem tier_poor (s : Student) (h : s.avg_grade < 55) :
    s.predict_performance = "Poor" := by
  unfold Student.predict_performance
  rw [if_neg (not_le.mpr (h.trans_le (by norm_num))),
    if_neg (not_le.mpr (h.trans_le (by norm_num))), if_neg (not_le.mpr h)]

theorem has_distinction_iff (s : Student) : s.has_distinction = true ↔ 80 < s.avg_grade := by
  simp [Student.has_distinction]

theorem is_top_student_iff (s : Student) : s.is_top_student = true ↔ 89 ≤ s.avg_grade := by
  simp [Student.is_top_student]

/-- A student record carrying a single grade (and no other data):
used to instantiate the claims at concrete averages. -/
def oneGrade (g : ℚ) : Student := ⟨"", "", [], [g], [], ""⟩

theorem avg_oneGrade (g : ℚ) : (oneGrade g).avg_grade = round2 g := by
  simp only [oneGrade, Student.avg_grade, List.foldl_nil, List.length_nil]
  norm_num

theorem avg_oneGrade_eq (g : ℚ) (n : ℤ) (h : g = (n : ℚ)/100) :
    (oneGrade g).avg_grade = g := by
  rw [avg_oneGrade, round2_eq_self g n h]

/-! ### Counting lemmas for the summary -/

theorem filter_length_mono {α : Type} (p q : α → Bool) (l : List α)
    (h : ∀ a ∈ l, p a = true → q a = true) :
    (l.filter p).length ≤ (l.filter q).length := by
  induction l with
  | nil => simp
  | cons a t ih =>
    have ht := ih (fun b hb => h b (List.mem_cons_of_mem a hb))
    by_cases hp : p a = true
    · rw [List.filter_cons_of_pos hp, List.filter_cons_of_pos (h a (List.mem_cons_self a t) hp)]
      simpa using ht
    · rw [List.filter_cons_of_neg hp]
      by_cases hq : q a = true
      · rw [List.filter_cons_of_pos hq]
        exact Nat.le_succ_of_le ht
      · rw [List.filter_cons_of_neg hq]
        exact ht

/-! ### Lemmas about `pySplit`, `joinSep` and the normalization -/

theorem pySplit_ne_nil (sep : Char) (l : List Char) : pySplit sep l ≠ [] := by
  cases l with
  | nil => simp [pySplit]
  | cons c cs =>
    simp only [pySplit]
    by_cases h : c = sep
    · simp [h]
    · rw [if_neg h]
      cases hs : pySplit sep cs <;> simp

theorem sep_not_mem_of_mem_pySplit (sep : Char) (l : List Char) :
    ∀ p ∈ pySplit sep l, sep ∉ p := by
  induction l with
  | nil =>
    intro p hp
    simp only [pySplit, List.mem_singleton] at hp
    simp [hp]
  | cons c cs ih =>
    intro p hp
    simp only [pySplit] at hp
    by_cases h : c = sep
    · rw [if_pos h] at hp
      rcases List.mem_cons.mp hp with rfl | hmem
      · simp
      · exact ih p hmem
    · rw [if_neg h] at hp
      cases hs : pySplit sep cs with
      | nil => exact absurd hs (pySplit_ne_nil sep cs)
      | cons q qs =>
        rw [hs] at hp
        rcases List.mem_cons.mp hp with rfl | hmem
        · intro hsep
          rcases List.mem_cons.mp hsep with hsc | hsq
          · exact h hsc.symm
          · exact ih q (hs ▸ List.mem_cons_self q qs) hsq
        · exact ih p (hs ▸ List.mem_cons_of_mem q hmem)

theorem pySplit_of_not_mem (sep : Char) (l : List Char) (h : sep ∉ l) :
    pySplit sep l = [l] := by
  induction l with
  | nil => rfl
  | cons c cs ih =>
    have hc : ¬ c = sep := by rintro rfl; exact h (List.mem_cons_self c cs)
    have hcs : sep ∉ cs := fun m => h (List.mem_cons_of_mem c m)
    simp only [pySplit, if_neg hc, ih hcs]

theorem pySplit_append (sep : Char) (p t : List Char) (h : sep ∉ p) :
    pySplit sep (p ++ sep :: t) = p :: pySplit sep t := by
  induction p with
  | nil => simp [pySplit]
  | cons c cs ih =>
    have hc : ¬ c = sep := by rintro rfl; exact h (List.mem_cons_self c cs)
    have hcs : sep ∉ cs := fun m => h (List.mem_cons_of_mem c m)
    simp only [List.cons_append, pySplit, if_neg hc]
    rw [show cs.append (sep :: t) = cs ++ sep :: t from rfl, ih hcs]

theorem pySplit_joinSep (sep : Char) (parts : List (List Char)) (hne : parts ≠ [])
    (h : ∀ p ∈ parts, sep ∉ p) : pySplit sep (joinSep sep parts) = parts := by
  induction parts with
  | nil => exact absurd rfl hne
  | cons p ps ih =>
    cases ps with
    | nil =>
      simp only [joinSep]
      exact pySplit_of_not_mem sep p (h p (List.mem_cons_self p []))
    | cons q qs =>
      show pySplit sep (p ++ sep :: joinSep sep (q :: qs)) = _
      rw [pySplit_append sep p _ (h p (List.mem_cons_self p (q :: qs))),
        ih (by simp) (fun r hr => h r (List.mem_cons_of_mem p hr))]

/-- The eligible-courses normalization exactly as the specification
words it (split the raw string on `;`, drop entries that are empty or
equal to `"-"` after trimming whitespace, rejoin the survivors with
`;`, return `"-"` when none survive), for comparison against the
implementation `eligibleFromRaw`. -/
def specEligibleNormalize (raw : List Char) : List Char :=
  let kept := (pySplit ';' raw).filter (fun p => !(pyStrip p == [] || pyStrip p == ['-']))
  if kept = [] then ['-'] else joinSep ';' kept

theorem eligible_eq_spec (raw : List Char) :
    eligibleFromRaw raw = specEligibleNormalize raw := by
  have hpred : keepEntry = (fun p => !(pyStrip p == [] || pyStrip p == ['-'])) := by
    funext p
    by_cases h1 : pyStrip p = [] <;> by_cases h2 : pyStrip p = ['-'] <;>
      simp [keepEntry, h1, h2]
  unfold eligibleFromRaw specEligibleNormalize
  rw [hpred]

/-! ### The claims -/

/-- C1: the computed average grade is the arithmetic mean of the
grades list rounded to 2 decimal places when the list is non-empty,
and 0.0 when the list is empty (no division happens there). -/
theorem claim_C1 :
    (∀ s : Student, s.grades = [] → s.avg_grade = 0) ∧
    (∀ s : Student, s.grades ≠ [] →
      s.avg_grade = round2 (s.grades.sum / (s.grades.length : ℚ))) :=
  ⟨avg_grade_of_nil, avg_grade_of_ne_nil⟩

/-- Witness for C1 at a student with no grades and a student with
grades `[95, 84]`. -/
theorem claim_C1_witness :
    ((⟨"", "", [], [], [], ""⟩ : Student).grades = [] ∧
      (⟨"", "", [], [], [], ""⟩ : Student).avg_grade = 0) ∧
    ((⟨"", "", [], [95, 84], [], ""⟩ : Student).grades ≠ [] ∧
      (⟨"", "", [], [95, 84], [], ""⟩ : Student).avg_grade =
        round2 (([95, 84] : List ℚ).sum / (([95, 84] : List ℚ).length : ℚ))) :=
  ⟨⟨rfl, claim_C1.1 _ rfl⟩,
    ⟨List.cons_ne_nil _ _, claim_C1.2 _ (List.cons_ne_nil _ _)⟩⟩

/-- C2: the performance tier is a four-way threshold classification
of the average grade with descending `>=` checks (first match wins):
`>= 80` Excellent, `[70, 80)` Good, `[55, 70)` Average, `< 55` Poor;
at the boundaries 79.99 is Good, 80.00 Excellent, 54.99 Poor, 55.00
Average. -/
theorem claim_C2 :
    (∀ s : Student,
      (80 ≤ s.avg_grade → s.predict_performance = "Excellent") ∧
      (70 ≤ s.avg_grade ∧ s.avg_grade < 80 → s.predict_performance = "Good") ∧
      (55 ≤ s.avg_grade ∧ s.avg_grade < 70 → s.predict_performance = "Average") ∧
      (s.avg_grade < 55 → s.predict_performance = "Poor")) ∧
    (∀ s : Student, s.avg_grade = 79.99 → s.predict_performance = "Good") ∧
    (∀ s : Student, s.avg_grade = 80 → s.predict_performance = "Excellent") ∧
    (∀ s : Student, s.avg_grade = 54.99 → s.predict_performance = "Poor") ∧
    (∀ s : Student, s.avg_grade = 55 → s.predict_performance = "Average") := by
  refine ⟨fun s => ⟨tier_excellent s, fun h => tier_good s h.1 h.2,
    fun h => tier_average s h.1 h.2, tier_poor s⟩, ?_, ?_, ?_, ?_⟩
  · intro s h
    exact tier_good s (by rw [h]; norm_num) (by rw [h]; norm_num)
  · intro s h
    exact tier_excellent s (by rw [h])
  · intro s h
    exact tier_poor s (by rw [h]; norm_num)
  · intro s h
    exact tier_average s (by rw [h]) (by rw [h]; norm_num)

/-- Witness for C2: students with single grades 79.99, 80, 54.99 and
55 hit the four boundary cases. -/
theorem claim_C2_witness :
    (oneGrade 79.99).predict_performance = "Good" ∧
    (oneGrade 80).predict_performance = "Excellent" ∧
    (oneGrade 54.99).predict_performance = "Poor" ∧
    (oneGrade 55).predict_performance = "Average" :=
  ⟨claim_C2.2.1 _ (avg_oneGrade_eq 79.99 7999 (by norm_num)),
    claim_C2.2.2.1 _ (avg_oneGrade_eq 80 8000 (by norm_num)),
    claim_C2.2.2.2.1 _ (avg_oneGrade_eq 54.99 5499 (by norm_num)),
    claim_C2.2.2.2.2 _ (avg_oneGrade_eq 55 5500 (by norm_num))⟩

/-- C3: the distinction flag holds exactly when the average grade is
strictly greater than 80; an average of exactly 80 does not qualify
although the tier there is already "Excellent", and 80.01 does. -/
theorem claim_C3 :
    ∀ s : Student,
      (s.has_distinction = true ↔ 80 < s.avg_grade) ∧
      (s.avg_grade = 80 →
        s.has_distinction = false ∧ s.predict_performance = "Excellent") ∧
      (s.avg_grade = 80.01 → s.has_distinction = true) := by
  intro s
  refine ⟨has_distinction_iff s, fun h => ⟨?_, tier_excellent s (le_of_eq h.symm)⟩, fun h => ?_⟩
  · simp [Student.has_distinction, h]
  · simp only [Student.has_distinction, h]
    norm_num

/-- Witness for C3 at single-grade students with averages 80 and
80.01. -/
theorem claim_C3_witness :
    ((oneGrade 80).has_distinction = false ∧
      (oneGrade 80).predict_performance = "Excellent") ∧
    (oneGrade 80.01).has_distinction = true :=
  ⟨(claim_C3 (oneGrade 80)).2.1 (avg_oneGrade_eq 80 8000 (by norm_num)),
    (claim_C3 (oneGrade 80.01)).2.2 (avg_oneGrade_eq 80.01 8001 (by norm_num))⟩

/-- C4: the top-student flag holds exactly when the average grade is
at least 89; 88.99 does not qualify, 89.00 does. -/
theorem claim_C4 :
    ∀ s : Student,
      (s.is_top_student = true ↔ 89 ≤ s.avg_grade) ∧
      (s.avg_grade = 88.99 → s.is_top_student = false) ∧
      (s.avg_grade = 89 → s.is_top_student = true) := by
  intro s
  refine ⟨is_top_student_iff s, fun h => ?_, fun h => ?_⟩
  · simp only [Student.is_top_student, h]
    norm_num
  · simp [Student.is_top_student, h]

/-- Witness for C4 at single-grade students with averages 88.99 and
89. -/
theorem claim_C4_witness :
    (oneGrade 88.99).is_top_student = false ∧ (oneGrade 89).is_top_student = true :=
  ⟨(claim_C4 (oneGrade 88.99)).2.1 (avg_oneGrade_eq 88.99 8899 (by norm_num)),
    (claim_C4 (oneGrade 89)).2.2 (avg_oneGrade_eq 89 8900 (by norm_num))⟩

/-- C5: the eligible-courses normalization splits on `;`, drops
entries empty or `"-"` after trimming, rejoins with `;`, and returns
`"-"` when nothing survives; `"SWC3524;-;  ;MATH101"` normalizes to
`"SWC3524;MATH101"`, and `"-"` and `""` normalize to `"-"`. -/
theorem claim_C5 :
    (∀ s : Student, s.get_eligible_courses = specEligibleNormalize s.eligible_courses) ∧
    (∀ s : Student, s.eligible_courses = "SWC3524;-;  ;MATH101".toList →
      s.get_eligible_courses = "SWC3524;MATH101".toList) ∧
    (∀ s : Student, s.eligible_courses = "-".toList → s.get_eligible_courses = "-".toList) ∧
    (∀ s : Student, s.eligible_courses = "".toList → s.get_eligible_courses = "-".toList) := by
  refine ⟨fun s => eligible_eq_spec s.eligible_courses,
    fun s h => ?_, fun s h => ?_, fun s h => ?_⟩ <;>
    (unfold Student.get_eligible_courses; rw [h]; decide)

/-- Witness for C5 at students holding the three sample raw
strings. -/
theorem claim_C5_witness :
    (⟨"", "", [], [], "SWC3524;-;  ;MATH101".toList, ""⟩ : Student).get_eligible_courses =
        "SWC3524;MATH101".toList ∧
    (⟨"", "", [], [], "-".toList, ""⟩ : Student).get_eligible_courses = "-".toList ∧
    (⟨"", "", [], [], "".toList, ""⟩ : Student).get_eligible_courses = "-".toList :=
  ⟨claim_C5.2.1 _ rfl, claim_C5.2.2.1 _ rfl, claim_C5.2.2.2 _ rfl⟩

/-- C10: the eligible-courses normalization is idempotent — every
normalized output, the sentinel `"-"` included, is a fixed point of
the normalization. -/
theorem claim_C10 :
    ∀ s : Student, eligibleFromRaw s.get_eligible_courses = s.get_eligible_courses := by
  intro s
  unfold Student.get_eligible_courses
  generalize s.eligible_courses = raw
  by_cases hp : (pySplit ';' raw).filter keepEntry = []
  · have h1 : eligibleFromRaw raw = ['-'] := by
      simp only [eligibleFromRaw]
      rw [if_pos hp]
    rw [h1]
    decide
  · have hmem : ∀ p ∈ (pySplit ';' raw).filter keepEntry, ';' ∉ p :=
      fun p hq => sep_not_mem_of_mem_pySplit ';' raw p (List.mem_filter.mp hq).1
    have hkeep : ∀ p ∈ (pySplit ';' raw).filter keepEntry, keepEntry p = true :=
      fun p hq => (List.mem_filter.mp hq).2
    have h1 : eligibleFromRaw raw = joinSep ';' ((pySplit ';' raw).filter keepEntry) := by
      simp only [eligibleFromRaw]
      rw [if_neg hp]
    rw [h1]
    simp only [eligibleFromRaw]
    rw [pySplit_joinSep ';' _ hp hmem, List.filter_eq_self.mpr hkeep, if_neg hp]

theorem has_distinction_false_iff (s : Student) :
    s.has_distinction = false ↔ ¬(80 < s.avg_grade) := by
  simp [Student.has_distinction]

theorem is_top_student_false_iff (s : Student) :
    s.is_top_student = false ↔ ¬(89 ≤ s.avg_grade) := by
  simp [Student.is_top_student]

/-- C7: serialization produces exactly the ten display fields; Code
and Grades are `;`-joined sequences, AvgGrade/Prediction/
EligibleCourses are the computed derived values, and the two boolean
flags are rendered as the literal strings `"Yes"`/`"No"`. -/
theorem claim_C7 :
    ∀ s : Student,
      s.to_dict.Name = s.name ∧
      s.to_dict.ID = s.student_id ∧
      s.to_dict.Code = joinSep ';' s.courses ∧
      s.to_dict.Grades = joinSep ';' (s.grades.map ratStr) ∧
      s.to_dict.AvgGrade = s.avg_grade ∧
      s.to_dict.Prediction = s.predict_performance ∧
      (s.to_dict.Distinction = "Yes" ↔ s.has_distinction = true) ∧
      (s.to_dict.Distinction = "No" ↔ s.has_distinction = false) ∧
      (s.to_dict.TopStudent = "Yes" ↔ s.is_top_student = true) ∧
      (s.to_dict.TopStudent = "No" ↔ s.is_top_student = false) ∧
      s.to_dict.EligibleCourses = s.get_eligible_courses ∧
      s.to_dict.Graduate = s.graduate := by
  intro s
  cases hd : s.has_distinction <;> cases ht : s.is_top_student <;>
    simp [Student.to_dict, hd, ht]

/-- Witness for C7: a high-average student is serialized with
Distinction `"Yes"`. -/
theorem claim_C7_witness : (oneGrade 95).to_dict.Distinction = "Yes" :=
  ((claim_C7 (oneGrade 95)).2.2.2.2.2.2.1).mpr
    ((has_distinction_iff _).mpr (by rw [avg_oneGrade_eq 95 9500 (by norm_num)]; norm_num))

/-- C9: the derived flags are ordered by implication (top student →
distinction → tier "Excellent"), so every summary satisfies
topStudentCount ≤ distinctionCount ≤ excellentCount ≤
totalStudents. -/
theorem claim_C9 :
    (∀ s : Student, s.is_top_student = true → s.has_distinction = true) ∧
    (∀ s : Student, s.has_distinction = true → s.predict_performance = "Excellent") ∧
    (∀ students : List Student,
      (get_summary students).topStudentCount ≤ (get_summary students).distinctionCount ∧
      (get_summary students).distinctionCount ≤ (get_summary students).excellentCount ∧
      (get_summary students).excellentCount ≤ (get_summary students).totalStudents) := by
  have h1 : ∀ s : Student, s.is_top_student = true → s.has_distinction = true := by
    intro s h
    rw [has_distinction_iff]
    have := (is_top_student_iff s).mp h
    linarith
  have h2 : ∀ s : Student, s.has_distinction = true → s.predict_performance = "Excellent" :=
    fun s h => tier_excellent s (le_of_lt ((has_distinction_iff s).mp h))
  refine ⟨h1, h2, fun students => ?_⟩
  unfold get_summary
  refine ⟨filter_length_mono _ _ _ (fun s _ h => h1 s h),
    filter_length_mono _ _ _ (fun s _ h => by rw [h2 s h]; rfl),
    ?_⟩
  simpa using List.length_filter_le _ students

/-- Witness for C9: a student with a 95 average is a top student,
hence has distinction, hence is classified "Excellent". -/
theorem claim_C9_witness :
    (oneGrade 95).has_distinction = true ∧
    (oneGrade 95).predict_performance = "Excellent" := by
  have htop : (oneGrade 95).is_top_student = true :=
    (is_top_student_iff _).mpr (by rw [avg_oneGrade_eq 95 9500 (by norm_num)]; norm_num)
  exact ⟨claim_C9.1 _ htop, claim_C9.2.1 _ (claim_C9.1 _ htop)⟩

/-- C6: the summary returns the student count, the class average
(mean of the per-student averages rounded to 2 decimals, 0 with no
students), and the Excellent/top-student/distinction counts; for
averages [89.5, 83.25, 79.0] this gives classAvgGrade 83.92,
excellentCount 2, distinctionCount 2 and topStudentCount 1. -/
theorem claim_C6 :
    (∀ students : List Student,
      (get_summary students).totalStudents = students.length ∧
      (get_summary students).classAvgGrade =
        (if students = [] then 0
          else round2 ((students.map Student.avg_grade).sum / (students.length : ℚ))) ∧
      (get_summary students).excellentCount =
        (students.filter (fun s => s.predict_performance == "Excellent")).length ∧
      (get_summary students).topStudentCount =
        (students.filter (fun s => s.is_top_student)).length ∧
      (get_summary students).distinctionCount =
        (students.filter (fun s => s.has_distinction)).length) ∧
    (∀ s1 s2 s3 : Student,
      s1.avg_grade = 89.5 → s2.avg_grade = 83.25 → s3.avg_grade = 79 →
      (get_summary [s1, s2, s3]).totalStudents = 3 ∧
      (get_summary [s1, s2, s3]).classAvgGrade = 83.92 ∧
      (get_summary [s1, s2, s3]).excellentCount = 2 ∧
      (get_summary [s1, s2, s3]).distinctionCount = 2 ∧
      (get_summary [s1, s2, s3]).topStudentCount = 1) := by
  constructor
  · intro students
    unfold get_summary
    refine ⟨rfl, ?_, rfl, rfl, rfl⟩
    cases students with
    | nil => simp
    | cons s t =>
      rw [if_neg (List.cons_ne_nil s t)]
      simp only [List.map_cons, foldl_add_eq, List.sum_cons, List.length_map,
        List.length_cons]
  · intro s1 s2 s3 h1 h2 h3
    have hp1 : s1.predict_performance = "Excellent" := tier_excellent s1 (by rw [h1]; norm_num)
    have hp2 : s2.predict_performance = "Excellent" := tier_excellent s2 (by rw [h2]; norm_num)
    have hp3 : s3.predict_performance = "Good" :=
      tier_good s3 (by rw [h3]; norm_num) (by rw [h3]; norm_num)
    have ht1 : s1.is_top_student = true := (is_top_student_iff s1).mpr (by rw [h1]; norm_num)
    have ht2 : s2.is_top_student = false :=
      (is_top_student_false_iff s2).mpr (by rw [h2]; norm_num)
    have ht3 : s3.is_top_student = false :=
      (is_top_student_false_iff s3).mpr (by rw [h3]; norm_num)
    have hd1 : s1.has_distinction = true := (has_distinction_iff s1).mpr (by rw [h1]; norm_num)
    have hd2 : s2.has_distinction = true := (has_distinction_iff s2).mpr (by rw [h2]; norm_num)
    have hd3 : s3.has_distinction = false :=
      (has_distinction_false_iff s3).mpr (by rw [h3]; norm_num)
    unfold get_summary
    refine ⟨rfl, ?_, ?_, ?_, ?_⟩
    · simp only [List.map_cons, List.map_nil, h1, h2, h3, List.foldl_cons, List.foldl_nil,
        List.length_cons, List.length_nil]
      rw [show ((89.5 : ℚ) + 83.25 + 79) / ((0 + 1 + 1 + 1 : ℕ) : ℚ) = 251.75 / 3 by norm_num]
      rw [round2_eq_of_gt_half _ 8391 (by norm_num) (by norm_num)]
      norm_num
    · simp [List.filter, hp1, hp2, hp3]
    · simp [List.filter, hd1, hd2, hd3]
    · simp [List.filter, ht1, ht2, ht3]

/-- Witness for C6 at three single-grade students with averages 89.5,
83.25 and 79. -/
theorem claim_C6_witness :
    (get_summary [oneGrade 89.5, oneGrade 83.25, oneGrade 79]).totalStudents = 3 ∧
    (get_summary [oneGrade 89.5, oneGrade 83.25, oneGrade 79]).classAvgGrade = 83.92 ∧
    (get_summary [oneGrade 89.5, oneGrade 83.25, oneGrade 79]).excellentCount = 2 ∧
    (get_summary [oneGrade 89.5, oneGrade 83.25, oneGrade 79]).distinctionCount = 2 ∧
    (get_summary [oneGrade 89.5, oneGrade 83.25, oneGrade 79]).topStudentCount = 1 :=
  claim_C6.2 _ _ _ (avg_oneGrade_eq 89.5 8950 (by norm_num))
    (avg_oneGrade_eq 83.25 8325 (by norm_num)) (avg_oneGrade_eq 79 7900 (by norm_num))

/-! ### Lemmas about the loader -/

theorem load_students_arr (xs : List JValue) :
    load_students (.ok (.arr xs)) = parseAll xs := rfl

theorem parseAll_ok_spec (xs : List JValue) (res : List Student)
    (h : parseAll xs = .ok res) :
    res.length = xs.length ∧
    ∀ i : ℕ, res.get? i = (xs.get? i).bind (fun d => (parseStudent d).toOption) := by
  induction xs generalizing res with
  | nil =>
    simp only [parseAll] at h
    injection h with h
    subst h
    simp
  | cons d ds ih =>
    simp only [parseAll] at h
    cases hp : parseStudent d with
    | error e => rw [hp] at h; simp [Bind.bind, Except.bind] at h
    | ok s =>
      rw [hp] at h
      cases hr : parseAll ds with
      | error e => rw [hr] at h; simp [Bind.bind, Except.bind] at h
      | ok rest =>
        rw [hr] at h
        simp only [Bind.bind, Except.bind] at h
        injection h with h
        subst h
        obtain ⟨ihl, ihg⟩ := ih rest hr
        refine ⟨by simp [ihl], fun i => ?_⟩
        cases i with
        | zero => simp [hp, Except.toOption]
        | succ n => simpa using ihg n

/-- C8: the loader propagates read/parse failures untouched; on a
parsed array it builds students index by index in array order (with
`EligibleCourses`/`Graduate` defaulting to `"-"`/`"No"` when absent),
and a successful result accounts for every element — no partial list
can be produced. -/
theorem claim_C8 :
    (∀ e : String, load_students (.error e) = .error e) ∧
    (∀ xs res, load_students (.ok (.arr xs)) = .ok res →
      res.length = xs.length ∧
      ∀ i : ℕ, res.get? i = (xs.get? i).bind (fun d => (parseStudent d).toOption)) ∧
    (∀ xs res, load_students (.ok (.arr xs)) = .ok res →
      ∀ d ∈ xs, ∃ s, parseStudent d = .ok s) ∧
    load_students (.ok (.arr
      [.obj [("Name", .str "Aisyah"), ("ID", .str "AM123"),
          ("Code", .arr [.str "SWC3524", .str "MATH101"]),
          ("Grades", .arr [.num 95, .num 84]),
          ("EligibleCourses", .str "SWC3524"), ("Graduate", .str "Yes")],
        .obj [("Name", .str "Balqis"), ("ID", .str "AM456"),
          ("Code", .arr [.str "SWC3524"]),
          ("Grades", .arr [.num 79])]]))
      = .ok
        [⟨"Aisyah", "AM123", ["SWC3524".toList, "MATH101".toList], [95, 84],
          "SWC3524".toList, "Yes"⟩,
          ⟨"Balqis", "AM456", ["SWC3524".toList], [79], "-".toList, "No"⟩] := by
  refine ⟨fun e => rfl, ?_, ?_, ?_⟩
  · intro xs res h
    exact parseAll_ok_spec xs res (by rw [← load_students_arr]; exact h)
  · intro xs res h d hd
    obtain ⟨hl, hg⟩ := parseAll_ok_spec xs res (by rw [← load_students_arr]; exact h)
    obtain ⟨i, hi⟩ := List.mem_iff_get?.mp hd
    have h2 := hg i
    rw [hi] at h2
    simp only [Option.some_bind] at h2
    cases hres : res.get? i with
    | none =>
      have hxs : i < xs.length := by
        by_contra hle
        rw [List.get?_eq_none.mpr (Nat.le_of_not_lt hle)] at hi
        exact Option.noConfusion hi
      have hres2 : res.length ≤ i := List.get?_eq_none.mp hres
      omega
    | some r =>
      rw [hres] at h2
      cases hp : parseStudent d with
      | error e =>
        rw [hp] at h2
        simp [Except.toOption] at h2
      | ok s => exact ⟨s, rfl⟩
  · rfl

/-- Witness for C8: a read failure propagates, and a successful load
of a one-record array has as many students as records. -/
theorem claim_C8_witness :
    load_students (.error "io failure") = .error "io failure" ∧
    ([(⟨"Balqis", "AM456", ["SWC3524".toList], [79], "-".toList, "No"⟩ : Student)].length =
      ([.obj [("Name", .str "Balqis"), ("ID", .str "AM456"),
        ("Code", .arr [.str "SWC3524"]),
        ("Grades", .arr [.num 79])]] : List JValue).length) :=
  ⟨claim_C8.1 "io failure",
    (claim_C8.2.1
      [.obj [("Name", .str "Balqis"), ("ID", .str "AM456"),
        ("Code", .arr [.str "SWC3524"]),
        ("Grades", .arr [.num 79])]]
      [⟨"Balqis", "AM456", ["SWC3524".toList], [79], "-".toList, "No"⟩]
      rfl).1⟩
